import Mathlib

/-!
Verification of `react-native-label-printer`: shallow embedding of the two
command encoders (`TSPLBuilder`, `CPCLBuilder` from `src/TSPLBuilder.ts`) and
of the Bluetooth connection manager (`LabelPrinterModule.kt`), together with
proofs of the specified properties.

Modelling conventions:
* JavaScript numbers occurring in the claims are integers, modelled as `Int`
  and serialized with `toString` (identical digits for integral values).
* A JS optional-options argument is a structure of `Option` fields; omitted
  options are `none`.  The JS falsy-default idiom `v || d` is `jsOrInt` /
  `jsOrString` (`0`, `""` and `undefined` are the falsy values in play).
* The global quote-escaping replace of the TSPL builders is `jsReplaceAllChar`,
  a single left-to-right replacing pass.
* The Kotlin module's socket side effects are made explicit: every operation
  returns the new state, the list of observable I/O events it performed, and
  its promise result (`Except ErrorKind Bool`).  Blocking outcomes of the
  wire (`socket.connect()`, `write`/`flush`) are supplied as parameters,
  one constructor per `catch` arm of the source.
-/

/-- JS `v || d` for numeric options: `undefined` and `0` are falsy. -/
def jsOrInt (v : Option Int) (d : Int) : Int :=
  match v with
  | none => d
  | some n => if n = 0 then d else n

/-- JS `v || d` for string options: `undefined` and `""` are falsy. -/
def jsOrString (v : Option String) (d : String) : String :=
  match v with
  | none => d
  | some s => if s = "" then d else s

/-- JS `s.replace(/c/g, r)` for a single-character pattern `c`:
one left-to-right pass replacing every occurrence of `c` by `r`. -/
def jsReplaceAllChar (c : Char) (r : String) (s : String) : String :=
  s.data.foldl (fun acc ch => if ch = c then acc ++ r else acc.push ch) ""

/-- Interface `TSPLTextOptions` (src/TSPLBuilder.ts): optional font, rotation and
magnifications. -/
structure TSPLTextOptions where
  font : Option String := none
  rotation : Option Int := none
  xMultiplication : Option Int := none
  yMultiplication : Option Int := none
deriving DecidableEq

/-- Interface `TSPLBarcodeOptions` (src/TSPLBuilder.ts). -/
structure TSPLBarcodeOptions where
  humanReadable : Option Bool := none
  rotation : Option Int := none
  narrow : Option Int := none
  wide : Option Int := none
deriving DecidableEq

/-- Interface `TSPLQrCodeOptions` (src/TSPLBuilder.ts). -/
structure TSPLQrCodeOptions where
  eccLevel : Option String := none
  cellWidth : Option Int := none
  mode : Option String := none
  rotation : Option Int := none
deriving DecidableEq

/-- Class `TSPLBuilder`: the accumulated command lines (`private commands`). -/
structure TSPLBuilder where
  commands : List String := []
deriving DecidableEq

/-- Constructor `new TSPLBuilder()`. -/
def TSPLBuilder.init : TSPLBuilder := {}

/-- Method `size(widthMm, heightMm)` pushes `SIZE {w} mm,{h} mm`. -/
def TSPLBuilder.size (b : TSPLBuilder) (widthMm heightMm : Int) : TSPLBuilder :=
  { b with commands := b.commands ++ [s!"SIZE {widthMm} mm,{heightMm} mm"] }

/-- Method `gap(gapMm, offsetMm = 0)` pushes `GAP {gap} mm,{offset} mm`. -/
def TSPLBuilder.gap (b : TSPLBuilder) (gapMm : Int) (offsetMm : Int := 0) : TSPLBuilder :=
  { b with commands := b.commands ++ [s!"GAP {gapMm} mm,{offsetMm} mm"] }

/-- Method `cls()` pushes `CLS`. -/
def TSPLBuilder.cls (b : TSPLBuilder) : TSPLBuilder :=
  { b with commands := b.commands ++ ["CLS"] }

/-- Method `codePage(value)` pushes `CODEPAGE {value}`. -/
def TSPLBuilder.codePage (b : TSPLBuilder) (value : String) : TSPLBuilder :=
  { b with commands := b.commands ++ [s!"CODEPAGE {value}"] }

/-- Method `clear()` is an alias for `cls()`. -/
def TSPLBuilder.clear (b : TSPLBuilder) : TSPLBuilder := b.cls

/-- Method `direction(direction)` pushes `DIRECTION {direction}`. -/
def TSPLBuilder.direction (b : TSPLBuilder) (d : Int) : TSPLBuilder :=
  { b with commands := b.commands ++ [s!"DIRECTION {d}"] }

/-- Method `reference(x, y)` pushes `REFERENCE {x},{y}`. -/
def TSPLBuilder.reference (b : TSPLBuilder) (x y : Int) : TSPLBuilder :=
  { b with commands := b.commands ++ [s!"REFERENCE {x},{y}"] }

/-- Method `density(value)` pushes `DENSITY {value}`. -/
def TSPLBuilder.density (b : TSPLBuilder) (value : Int) : TSPLBuilder :=
  { b with commands := b.commands ++ [s!"DENSITY {value}"] }

/-- Method `feed(mm)` pushes `FEED {mm}`. -/
def TSPLBuilder.feed (b : TSPLBuilder) (mm : Int) : TSPLBuilder :=
  { b with commands := b.commands ++ [s!"FEED {mm}"] }

/-- Method `speed(value)` pushes `SPEED {value}`. -/
def TSPLBuilder.speed (b : TSPLBuilder) (value : Int) : TSPLBuilder :=
  { b with commands := b.commands ++ [s!"SPEED {value}"] }

/-- Method `box(x, y, xEnd, yEnd, thickness = 1)` pushes
`BOX {x},{y},{xEnd},{yEnd},{thickness}`. -/
def TSPLBuilder.box (b : TSPLBuilder) (x y xEnd yEnd : Int)
    (thickness : Int := 1) : TSPLBuilder :=
  { b with commands := b.commands ++ [s!"BOX {x},{y},{xEnd},{yEnd},{thickness}"] }

/-- The line pushed by `TSPLBuilder.text`: defaults `font="0"`, `rotation=0`,
`xMultiplication=1`, `yMultiplication=1`; content quotes escaped. -/
def tsplTextLine (x y : Int) (content : String) (options : TSPLTextOptions) : String :=
  let font := jsOrString options.font "0"
  let rot := jsOrInt options.rotation 0
  let xMul := jsOrInt options.xMultiplication 1
  let yMul := jsOrInt options.yMultiplication 1
  let safeContent := jsReplaceAllChar '"' "\\\"" content
  s!"TEXT {x},{y},\"{font}\",{rot},{xMul},{yMul},\"{safeContent}\""

/-- Method `text(x, y, content, options?)`. -/
def TSPLBuilder.text (b : TSPLBuilder) (x y : Int) (content : String)
    (options : TSPLTextOptions := {}) : TSPLBuilder :=
  { b with commands := b.commands ++ [tsplTextLine x y content options] }

/-- The line pushed by `TSPLBuilder.barcode`: defaults `type="128"`,
`height=50`, `humanReadable=false`, `rotation=0`, `narrow=1`, `wide=1`. -/
def tsplBarcodeLine (x y : Int) (content : String) (type : String) (height : Int)
    (options : TSPLBarcodeOptions) : String :=
  let readable : Int := match options.humanReadable with
    | some true => 1
    | _ => 0
  let rot := jsOrInt options.rotation 0
  let narrow := jsOrInt options.narrow 1
  let wide := jsOrInt options.wide 1
  let safeContent := jsReplaceAllChar '"' "\\\"" content
  s!"BARCODE {x},{y},\"{type}\",{height},{readable},{rot},{narrow},{wide},\"{safeContent}\""

/-- Method `barcode(x, y, content, type = "128", height = 50, options?)`. -/
def TSPLBuilder.barcode (b : TSPLBuilder) (x y : Int) (content : String)
    (type : String := "128") (height : Int := 50)
    (options : TSPLBarcodeOptions := {}) : TSPLBuilder :=
  { b with commands := b.commands ++ [tsplBarcodeLine x y content type height options] }

/-- The line pushed by `TSPLBuilder.qrCode`: defaults `eccLevel="L"`,
`cellWidth=5`, `mode="A"`, `rotation=0`. -/
def tsplQrCodeLine (x y : Int) (content : String)
    (options : TSPLQrCodeOptions) : String :=
  let ecc := jsOrString options.eccLevel "L"
  let cellWidth := jsOrInt options.cellWidth 5
  let mode := jsOrString options.mode "A"
  let rot := jsOrInt options.rotation 0
  let safeContent := jsReplaceAllChar '"' "\\\"" content
  s!"QRCODE {x},{y},{ecc},{cellWidth},{mode},{rot},\"{safeContent}\""

/-- Method `qrCode(x, y, content, options?)`. -/
def TSPLBuilder.qrCode (b : TSPLBuilder) (x y : Int) (content : String)
    (options : TSPLQrCodeOptions := {}) : TSPLBuilder :=
  { b with commands := b.commands ++ [tsplQrCodeLine x y content options] }

/-- Method `print(copies = 1)` pushes `PRINT {copies}`. -/
def TSPLBuilder.print (b : TSPLBuilder) (copies : Int := 1) : TSPLBuilder :=
  { b with commands := b.commands ++ [s!"PRINT {copies}"] }

/-- Method `build()` joins `this.commands` with a newline and appends a
trailing newline; as the method body
contains no assignment, its embedding returns the output together with the
unchanged receiver. -/
def TSPLBuilder.build (b : TSPLBuilder) : String × TSPLBuilder :=
  (String.intercalate "\n" b.commands ++ "\n", b)

/-- Interface `CPCLTextOptions` (src/TSPLBuilder.ts). -/
structure CPCLTextOptions where
  font : Option String := none
  size : Option Int := none
  rotation : Option Int := none
deriving DecidableEq

/-- Interface `CPCLBarcodeOptions` (src/TSPLBuilder.ts): narrow bar width and
wide-to-narrow ratio. -/
structure CPCLBarcodeOptions where
  width : Option Int := none
  ratio : Option Int := none
deriving DecidableEq

/-- Interface `CPCLQrCodeOptions` (src/TSPLBuilder.ts). -/
structure CPCLQrCodeOptions where
  cellWidth : Option Int := none
deriving DecidableEq

/-- Class `CPCLBuilder`: accumulated lines plus the remembered setup parameters.
Field initializers are the source's: `_commands = []`, `_height = 200`,
`_quantity = 1`, `_offset = 0`. -/
structure CPCLBuilder where
  commands : List String := []
  height : Int := 200
  quantity : Int := 1
  offset : Int := 0
deriving DecidableEq

/-- Constructor `new CPCLBuilder()`. -/
def CPCLBuilder.init : CPCLBuilder := {}

/-- The CPCL setup line `! {offset} 200 200 {height} {quantity}`. -/
def cpclSetupLine (offset height quantity : Int) : String :=
  s!"! {offset} 200 200 {height} {quantity}"

/-- Method `setup(height, offset = 0, quantity = 1)`: records the parameters and
pushes the setup line. -/
def CPCLBuilder.setup (b : CPCLBuilder) (height : Int) (offset : Int := 0)
    (quantity : Int := 1) : CPCLBuilder :=
  { b with
    height := height
    offset := offset
    quantity := quantity
    commands := b.commands ++ [cpclSetupLine offset height quantity] }

/-- Method `pageWidth(width)` pushes `PAGE-WIDTH {width}`. -/
def CPCLBuilder.pageWidth (b : CPCLBuilder) (width : Int) : CPCLBuilder :=
  { b with commands := b.commands ++ [s!"PAGE-WIDTH {width}"] }

/-- Method `encoding(value)` pushes `COUNTRY {value}`. -/
def CPCLBuilder.encoding (b : CPCLBuilder) (value : String) : CPCLBuilder :=
  { b with commands := b.commands ++ [s!"COUNTRY {value}"] }

/-- Method `clear()`: `_commands = []`, then if `_height > 0` pushes the setup line
rebuilt from the remembered `_offset`, `_height`, `_quantity`. -/
def CPCLBuilder.clear (b : CPCLBuilder) : CPCLBuilder :=
  { b with
    commands :=
      if b.height > 0 then [cpclSetupLine b.offset b.height b.quantity] else [] }

/-- The line pushed by `CPCLBuilder.text`: defaults `font="7"`, `size=0`;
the content is emitted verbatim (no escaping). -/
def cpclTextLine (x y : Int) (content : String) (options : CPCLTextOptions) : String :=
  let font := jsOrString options.font "7"
  let size := jsOrInt options.size 0
  s!"TEXT {font} {size} {x} {y} {content}"

/-- Method `text(x, y, content, options?)` (CPCL). -/
def CPCLBuilder.text (b : CPCLBuilder) (x y : Int) (content : String)
    (options : CPCLTextOptions := {}) : CPCLBuilder :=
  { b with commands := b.commands ++ [cpclTextLine x y content options] }

/-- The line pushed by `CPCLBuilder.barcode`: defaults `type="128"`,
`height=50`, `width=1`, ratio `1`. -/
def cpclBarcodeLine (x y : Int) (content : String) (type : String) (height : Int)
    (options : CPCLBarcodeOptions) : String :=
  match options with
  | ⟨ow, orat⟩ =>
    let w := jsOrInt ow 1
    let r := jsOrInt orat 1
    s!"BARCODE {type} {w} {r} {height} {x} {y} {content}"

/-- Method `barcode(x, y, content, type = "128", height = 50, options?)` (CPCL). -/
def CPCLBuilder.barcode (b : CPCLBuilder) (x y : Int) (content : String)
    (type : String := "128") (height : Int := 50)
    (options : CPCLBarcodeOptions := {}) : CPCLBuilder :=
  { b with commands := b.commands ++ [cpclBarcodeLine x y content type height options] }

/-- Method `qrCode(x, y, content, options?)` (CPCL): pushes the three lines
`BARCODE QR {x} {y} M 2 U {size}`, `MA,{content}`, `ENDQR`
(default `cellWidth=6`). -/
def CPCLBuilder.qrCode (b : CPCLBuilder) (x y : Int) (content : String)
    (options : CPCLQrCodeOptions := {}) : CPCLBuilder :=
  let size := jsOrInt options.cellWidth 6
  { b with
    commands := b.commands ++
      [s!"BARCODE QR {x} {y} M 2 U {size}", s!"MA,{content}", "ENDQR"] }

/-- Method `box(x, y, xEnd, yEnd, thickness = 1)` (CPCL) pushes
`BOX {x} {y} {xEnd} {yEnd} {thickness}`. -/
def CPCLBuilder.box (b : CPCLBuilder) (x y xEnd yEnd : Int)
    (thickness : Int := 1) : CPCLBuilder :=
  { b with commands := b.commands ++ [s!"BOX {x} {y} {xEnd} {yEnd} {thickness}"] }

/-- Method `print()` (CPCL) pushes `PRINT`. -/
def CPCLBuilder.print (b : CPCLBuilder) : CPCLBuilder :=
  { b with commands := b.commands ++ ["PRINT"] }

/-- Method `feed(dots)` (CPCL) pushes `POSTFEED {dots}`. -/
def CPCLBuilder.feed (b : CPCLBuilder) (dots : Int) : CPCLBuilder :=
  { b with commands := b.commands ++ [s!"POSTFEED {dots}"] }

/-- Method `build()` (CPCL) joins the lines with CRLF and appends a trailing
CRLF; no
assignment occurs, so the receiver is returned unchanged. -/
def CPCLBuilder.build (b : CPCLBuilder) : String × CPCLBuilder :=
  (String.intercalate "\r\n" b.commands ++ "\r\n", b)

/-- One line-emitting `CPCLBuilder` method call other than `setup` and
`clear`, with its arguments (used to quantify over arbitrary call
sequences). -/
inductive CPCLOp where
  | pageWidth (width : Int)
  | encoding (value : String)
  | text (x y : Int) (content : String) (options : CPCLTextOptions)
  | barcode (x y : Int) (content : String) (type : String) (height : Int)
      (options : CPCLBarcodeOptions)
  | qrCode (x y : Int) (content : String) (options : CPCLQrCodeOptions)
  | box (x y xEnd yEnd thickness : Int)
  | print
  | feed (dots : Int)
deriving DecidableEq

/-- Apply one `CPCLOp` method call to a builder. -/
def CPCLBuilder.applyOp (b : CPCLBuilder) : CPCLOp → CPCLBuilder
  | .pageWidth width => b.pageWidth width
  | .encoding value => b.encoding value
  | .text x y content options => b.text x y content options
  | .barcode x y content type height options => b.barcode x y content type height options
  | .qrCode x y content options => b.qrCode x y content options
  | .box x y xEnd yEnd thickness => b.box x y xEnd yEnd thickness
  | .print => b.print
  | .feed dots => b.feed dots

/-- Apply a sequence of `CPCLOp` method calls, left to right. -/
def CPCLBuilder.applyOps (b : CPCLBuilder) (ops : List CPCLOp) : CPCLBuilder :=
  ops.foldl CPCLBuilder.applyOp b

/-- One `TSPLBuilder` method call, with its arguments (used to quantify over
arbitrary call sequences). -/
inductive TSPLOp where
  | size (widthMm heightMm : Int)
  | gap (gapMm offsetMm : Int)
  | cls
  | codePage (value : String)
  | clear
  | direction (d : Int)
  | reference (x y : Int)
  | density (value : Int)
  | feed (mm : Int)
  | speed (value : Int)
  | box (x y xEnd yEnd thickness : Int)
  | text (x y : Int) (content : String) (options : TSPLTextOptions)
  | barcode (x y : Int) (content : String) (type : String) (height : Int)
      (options : TSPLBarcodeOptions)
  | qrCode (x y : Int) (content : String) (options : TSPLQrCodeOptions)
  | print (copies : Int)
deriving DecidableEq

/-- Apply one `TSPLOp` method call to a builder. -/
def TSPLBuilder.applyOp (b : TSPLBuilder) : TSPLOp → TSPLBuilder
  | .size widthMm heightMm => b.size widthMm heightMm
  | .gap gapMm offsetMm => b.gap gapMm offsetMm
  | .cls => b.cls
  | .codePage value => b.codePage value
  | .clear => b.clear
  | .direction d => b.direction d
  | .reference x y => b.reference x y
  | .density value => b.density value
  | .feed mm => b.feed mm
  | .speed value => b.speed value
  | .box x y xEnd yEnd thickness => b.box x y xEnd yEnd thickness
  | .text x y content options => b.text x y content options
  | .barcode x y content type height options => b.barcode x y content type height options
  | .qrCode x y content options => b.qrCode x y content options
  | .print copies => b.print copies

/-- Apply a sequence of `TSPLOp` method calls, left to right. -/
def TSPLBuilder.applyOps (b : TSPLBuilder) (ops : List TSPLOp) : TSPLBuilder :=
  ops.foldl TSPLBuilder.applyOp b

/-!
Connection manager (`LabelPrinterModule.kt`, the version exposing `sendRaw`).
-/

/-- The error kinds of the module, one per distinct `promise.reject` code. -/
inductive ErrorKind where
  | BluetoothUnavailable
  | PermissionDenied
  | ConnectionFailed
  | NotConnected
  | PrintFailed
  | Unexpected
deriving DecidableEq

/-- The string code the module passes to `promise.reject` for each kind. -/
def ErrorKind.code : ErrorKind → String
  | .BluetoothUnavailable => "BLUETOOTH_UNAVAILABLE"
  | .PermissionDenied => "PERMISSION_DENIED"
  | .ConnectionFailed => "CONNECTION_FAILED"
  | .NotConnected => "NOT_CONNECTED"
  | .PrintFailed => "PRINT_FAILED"
  | .Unexpected => "ERROR"

/-- A `BluetoothSocket`: identity, target address, and `isConnected`. -/
structure Socket where
  id : Nat
  addr : String
  isConnected : Bool
deriving DecidableEq

/-- The module's mutable state: the owned socket slot `mmSocket`
(`none` is the Disconnected state). -/
structure ConnState where
  mmSocket : Option Socket := none
deriving DecidableEq

/-- Observable socket I/O performed by a module operation, in order. -/
inductive IOEvent where
  | socketClose (id : Nat)
  | socketConnectAttempt (id : Nat)
  | socketConnected (id : Nat)
  | socketWrite (id : Nat) (data : String)
deriving DecidableEq

/-- Method `closeSocket()`: `mmSocket?.close()` (close errors swallowed), then
`mmSocket = null`.  Returns the new state and the close event, if any. -/
def closeSocket (st : ConnState) : ConnState × List IOEvent :=
  match st.mmSocket with
  | none => (⟨none⟩, [])
  | some s => (⟨none⟩, [.socketClose s.id])

/-- Outcome of the blocking `socket.connect()` handshake, one constructor
per `catch` arm of `connect`. -/
inductive ConnectOutcome where
  | ok
  | ioError
  | otherError
deriving DecidableEq

/-- Method `connect(address)`: reject if no adapter or no permission; otherwise
close any prior socket, create a fresh RFCOMM socket (identified by
`fresh`) and attempt its handshake.  On success the fresh socket becomes
`mmSocket`; on either failure `closeSocket()` runs again (a no-op, since
`mmSocket` is already null) and the promise is rejected. -/
def connect (st : ConnState) (address : String) (adapterPresent hasPerm : Bool)
    (fresh : Nat) (outcome : ConnectOutcome) :
    ConnState × List IOEvent × Except ErrorKind Bool :=
  if adapterPresent = false then (st, [], .error .BluetoothUnavailable)
  else if hasPerm = false then (st, [], .error .PermissionDenied)
  else
    let c1 := closeSocket st
    match outcome with
    | .ok =>
        (⟨some ⟨fresh, address, true⟩⟩,
          c1.2 ++ [.socketConnectAttempt fresh, .socketConnected fresh], .ok true)
    | .ioError =>
        let c2 := closeSocket c1.1
        (c2.1, c1.2 ++ [.socketConnectAttempt fresh] ++ c2.2, .error .ConnectionFailed)
    | .otherError =>
        let c2 := closeSocket c1.1
        (c2.1, c1.2 ++ [.socketConnectAttempt fresh] ++ c2.2, .error .Unexpected)

/-- Method `disconnect()`: `closeSocket()` then resolve `true` (close errors are
swallowed inside `closeSocket`, so the catch arm is unreachable). -/
def disconnect (st : ConnState) : ConnState × List IOEvent × Except ErrorKind Bool :=
  let c := closeSocket st
  (c.1, c.2, .ok true)

/-- Outcome of the blocking `write`/`flush` on the socket output stream,
one constructor per `catch` arm of `sendRaw`. -/
inductive SendOutcome where
  | ok
  | ioError
  | otherError
deriving DecidableEq

/-- Method `sendRaw(data)`: reject `NOT_CONNECTED` when `mmSocket` is null or not
connected (before any I/O); reject `PERMISSION_DENIED` without permission;
otherwise write the UTF-8 bytes and flush.  An `IOException` closes the
socket and rejects `PRINT_FAILED`; any other exception rejects `ERROR`
without touching the socket. -/
def sendRaw (st : ConnState) (data : String) (hasPerm : Bool)
    (outcome : SendOutcome) : ConnState × List IOEvent × Except ErrorKind Bool :=
  match st.mmSocket with
  | none => (st, [], .error .NotConnected)
  | some s =>
    if s.isConnected = false then (st, [], .error .NotConnected)
    else if hasPerm = false then (st, [], .error .PermissionDenied)
    else
      match outcome with
      | .ok => (st, [.socketWrite s.id data], .ok true)
      | .ioError =>
          let c := closeSocket st
          (c.1, [.socketWrite s.id data] ++ c.2, .error .PrintFailed)
      | .otherError => (st, [.socketWrite s.id data], .error .Unexpected)

/-- The sockets open after a list of events, starting from `initial`:
a socket is opened by a successful handshake and removed by a close. -/
def openSockets (initial : List Nat) (evs : List IOEvent) : List Nat :=
  evs.foldl
    (fun acc e =>
      match e with
      | .socketClose i => acc.erase i
      | .socketConnected i => acc ++ [i]
      | _ => acc)
    initial

/-!  Helper lemmas. -/

/-- Every non-`setup`, non-`clear` CPCL method only appends command lines:
the remembered setup parameters are untouched. -/
theorem CPCLBuilder.applyOp_params (b : CPCLBuilder) (op : CPCLOp) :
    (b.applyOp op).height = b.height ∧ (b.applyOp op).offset = b.offset ∧
      (b.applyOp op).quantity = b.quantity := by
  cases op <;>
    simp [CPCLBuilder.applyOp, CPCLBuilder.pageWidth, CPCLBuilder.encoding,
      CPCLBuilder.text, CPCLBuilder.barcode, CPCLBuilder.qrCode,
      CPCLBuilder.box, CPCLBuilder.print, CPCLBuilder.feed]

/-- The remembered setup parameters survive any sequence of non-`setup`,
non-`clear` CPCL method calls. -/
theorem CPCLBuilder.applyOps_params (b : CPCLBuilder) (ops : List CPCLOp) :
    (b.applyOps ops).height = b.height ∧ (b.applyOps ops).offset = b.offset ∧
      (b.applyOps ops).quantity = b.quantity := by
  induction ops generalizing b with
  | nil => exact ⟨rfl, rfl, rfl⟩
  | cons op ops ih =>
    have h1 := CPCLBuilder.applyOp_params b op
    have h2 := ih (b.applyOp op)
    exact ⟨h2.1.trans h1.1, h2.2.1.trans h1.2.1, h2.2.2.trans h1.2.2⟩

/-- Accumulator form of the single-character global replace: the result is
the accumulator followed by the pointwise expansion of the scanned list. -/
theorem jsReplaceAllChar_foldl (c : Char) (r : String) (l : List Char)
    (acc : String) :
    (l.foldl (fun a ch => if ch = c then a ++ r else a.push ch) acc).data
      = acc.data ++ l.flatMap (fun ch => if ch = c then r.data else [ch]) := by
  induction l generalizing acc with
  | nil => simp
  | cons ch l ih =>
    rw [List.foldl_cons, ih]
    by_cases hch : ch = c
    · simp [hch, String.data_append]
    · simp [hch, String.push]

/-- Method `s.replace(/c/g, r)` expands every occurrence of `c` to `r` and leaves
every other character unchanged, in place. -/
theorem jsReplaceAllChar_data (c : Char) (r : String) (s : String) :
    (jsReplaceAllChar c r s).data
      = s.data.flatMap (fun ch => if ch = c then r.data else [ch]) := by
  have h := jsReplaceAllChar_foldl c r s.data ""
  simpa [jsReplaceAllChar] using h

/-!  Claim theorems. -/

/-- C1 counterexample: on a fresh `CPCLBuilder` with no prior `setup` call,
`clear()` does not leave the command buffer empty — it emits the setup line
built from the initializers (`height = 200`, `offset = 0`, `quantity = 1`). -/
theorem c1_fresh_clear_counterexample :
    (CPCLBuilder.init.clear).commands = ["! 0 200 200 200 1"] ∧
      (CPCLBuilder.init.clear).commands ≠ [] := by
  exact ⟨rfl, by decide⟩

/-- C1 (amended): `clear()` discards all accumulated lines and re-emits the
setup line whenever the remembered height is nonzero; since the remembered
parameters are initialized to `200`/`0`/`1`, this happens even when `setup`
was never called: after any sequence of non-`setup` line-emitting calls on a
fresh builder, `clear()` leaves exactly the default setup line
`! 0 200 200 200 1`, never an empty buffer. -/
theorem c1_clear_reemits_remembered_setup (ops : List CPCLOp) :
    ((CPCLBuilder.init.applyOps ops).clear).commands = ["! 0 200 200 200 1"] := by
  have h := CPCLBuilder.applyOps_params CPCLBuilder.init ops
  have hh : (CPCLBuilder.init.applyOps ops).height = 200 := h.1
  have ho : (CPCLBuilder.init.applyOps ops).offset = 0 := h.2.1
  have hq : (CPCLBuilder.init.applyOps ops).quantity = 1 := h.2.2
  simp only [CPCLBuilder.clear, hh, ho, hq]
  decide

/-- C2: with a connected socket owned, a `sendRaw` whose write/flush raises
an `IOException` closes and discards the socket (state `Disconnected`,
trace: attempted write then close) and rejects with `PrintFailed`; any
subsequent `sendRaw` without an intervening `connect` rejects with
`NotConnected` without touching state or performing I/O. -/
theorem c2_sendRaw_ioError_teardown (id : Nat) (addr data : String) :
    (sendRaw ⟨some ⟨id, addr, true⟩⟩ data true .ioError).1 = ⟨none⟩ ∧
    (sendRaw ⟨some ⟨id, addr, true⟩⟩ data true .ioError).2.1
        = [.socketWrite id data, .socketClose id] ∧
    (sendRaw ⟨some ⟨id, addr, true⟩⟩ data true .ioError).2.2
        = .error .PrintFailed ∧
    ∀ (data2 : String) (perm2 : Bool) (out2 : SendOutcome),
      sendRaw (sendRaw ⟨some ⟨id, addr, true⟩⟩ data true .ioError).1 data2 perm2 out2
        = (⟨none⟩, [], .error .NotConnected) := by
  exact ⟨rfl, rfl, rfl, fun _ _ _ => rfl⟩

/-- C3: the chained TSPL script
`size(50,30).gap(2).clear().text(10,10,"Hi").print(1).build()` is exactly
the five expected lines joined by `\n` with a trailing `\n`, with the gap
offset defaulting to `0`, font `"0"`, rotation `0`, multiplications `1`. -/
theorem c3_end_to_end_script :
    ((((((TSPLBuilder.init.size 50 30).gap 2).clear).text 10 10 "Hi").print 1).build).1
      = "SIZE 50 mm,30 mm\nGAP 2 mm,0 mm\nCLS\nTEXT 10,10,\"0\",0,1,1,\"Hi\"\nPRINT 1\n" := by
  rfl

/-- C5: after `setup(200, 0, 1)` and any sequence of other line-emitting
calls, `clear()` discards the accumulated lines and leaves
`! 0 200 200 200 1` as the sole remaining command line. -/
theorem c5_clear_after_setup (ops : List CPCLOp) :
    (((CPCLBuilder.init.setup 200 0 1).applyOps ops).clear).commands
      = ["! 0 200 200 200 1"] := by
  have h := CPCLBuilder.applyOps_params (CPCLBuilder.init.setup 200 0 1) ops
  have hh : ((CPCLBuilder.init.setup 200 0 1).applyOps ops).height = 200 := h.1
  have ho : ((CPCLBuilder.init.setup 200 0 1).applyOps ops).offset = 0 := h.2.1
  have hq : ((CPCLBuilder.init.setup 200 0 1).applyOps ops).quantity = 1 := h.2.2
  simp only [CPCLBuilder.clear, hh, ho, hq]
  decide

/-- C6: for every sequence of builder calls, `build()` leaves the
accumulated command lines untouched, a second `build()` returns the
byte-for-byte identical string, and the output is the accumulated lines
joined with `\n` plus a trailing `\n`. -/
theorem c6_build_pure_repeatable (ops : List TSPLOp) :
    ((TSPLBuilder.init.applyOps ops).build).2 = TSPLBuilder.init.applyOps ops ∧
    ((TSPLBuilder.init.applyOps ops).build).1
        = ((((TSPLBuilder.init.applyOps ops).build).2).build).1 ∧
    ((TSPLBuilder.init.applyOps ops).build).1
        = String.intercalate "\n" (TSPLBuilder.init.applyOps ops).commands ++ "\n" := by
  exact ⟨rfl, rfl, rfl⟩

/-- C7: `sendRaw` in the `Disconnected` state (no socket owned — a fresh
module, or any state right after `disconnect()`) rejects immediately with
`NotConnected`, performs no I/O (empty event trace), and leaves the state
unchanged, for every payload, permission value and would-be write outcome. -/
theorem c7_sendRaw_disconnected (data : String) (perm : Bool)
    (out : SendOutcome) (st : ConnState) :
    sendRaw ⟨none⟩ data perm out = (⟨none⟩, [], .error .NotConnected) ∧
    sendRaw (disconnect st).1 data perm out = (⟨none⟩, [], .error .NotConnected) := by
  refine ⟨rfl, ?_⟩
  obtain ⟨o⟩ := st
  cases o <;> rfl

/-- C4: the escape applied by TSPL `text`/`barcode`/`qrCode` expands every
`"` of the content to the two characters `\` `"` and leaves every other
character unchanged in place; each of the three methods emits the line with
exactly that escaped content in its final quoted field; CPCL `text` performs
no escaping — its emitted line carries the content verbatim as a suffix, so
a `"` in content appears unchanged there. -/
theorem c4_quote_escaping (content type : String) (x y height : Int)
    (b : TSPLBuilder) (ot : TSPLTextOptions) (ob : TSPLBarcodeOptions)
    (oq : TSPLQrCodeOptions) (oc : CPCLTextOptions) :
    (jsReplaceAllChar '"' "\\\"" content).data
        = content.data.flatMap
            (fun ch => if ch = '"' then ['\\', '"'] else [ch]) ∧
    (let esc := String.mk (content.data.flatMap
        fun ch => if ch = '"' then ['\\', '"'] else [ch])
     let f := jsOrString ot.font "0"
     let r := jsOrInt ot.rotation 0
     let xm := jsOrInt ot.xMultiplication 1
     let ym := jsOrInt ot.yMultiplication 1
     (b.text x y content ot).commands
        = b.commands ++ [s!"TEXT {x},{y},\"{f}\",{r},{xm},{ym},\"{esc}\""]) ∧
    (let esc := String.mk (content.data.flatMap
        fun ch => if ch = '"' then ['\\', '"'] else [ch])
     let rd : Int := match ob.humanReadable with
       | some true => 1
       | _ => 0
     let r := jsOrInt ob.rotation 0
     let nw := jsOrInt ob.narrow 1
     let wd := jsOrInt ob.wide 1
     (b.barcode x y content type height ob).commands
        = b.commands ++
            [s!"BARCODE {x},{y},\"{type}\",{height},{rd},{r},{nw},{wd},\"{esc}\""]) ∧
    (let esc := String.mk (content.data.flatMap
        fun ch => if ch = '"' then ['\\', '"'] else [ch])
     let ec := jsOrString oq.eccLevel "L"
     let cw := jsOrInt oq.cellWidth 5
     let md := jsOrString oq.mode "A"
     let r := jsOrInt oq.rotation 0
     (b.qrCode x y content oq).commands
        = b.commands ++ [s!"QRCODE {x},{y},{ec},{cw},{md},{r},\"{esc}\""]) ∧
    (cpclTextLine x y content oc).data
        = (cpclTextLine x y "" oc).data ++ content.data := by
  have hA := jsReplaceAllChar_data '"' "\\\"" content
  have hesc : jsReplaceAllChar '"' "\\\"" content
      = String.mk (content.data.flatMap
          fun ch => if ch = '"' then ['\\', '"'] else [ch]) :=
    String.ext hA
  refine ⟨hA, ?_, ?_, ?_, ?_⟩
  · simp only [TSPLBuilder.text, tsplTextLine, hesc]
  · simp only [TSPLBuilder.barcode, tsplBarcodeLine, hesc]
  · simp only [TSPLBuilder.qrCode, tsplQrCodeLine, hesc]
  · simp [cpclTextLine, toString, String.data_append]

/-- C8 counterexample: when the handshake of a replacing `connect` fails
with an `IOException`, the attempted socket is *not* closed — the catch-path
`closeSocket()` finds `mmSocket` already null — so the claim's "the
attempted socket is closed" is false.  Concretely, owning socket `0` (to
"A") and attempting fresh socket `1` (to "B"): the trace closes socket `0`
and attempts socket `1`, but contains no close of socket `1`; the state is
back to Disconnected and the promise is rejected `ConnectionFailed`. -/
theorem c8_attempted_socket_not_closed :
    (connect ⟨some ⟨0, "A", true⟩⟩ "B" true true 1 .ioError).1 = ⟨none⟩ ∧
    (connect ⟨some ⟨0, "A", true⟩⟩ "B" true true 1 .ioError).2.2
        = .error .ConnectionFailed ∧
    (connect ⟨some ⟨0, "A", true⟩⟩ "B" true true 1 .ioError).2.1
        = [.socketClose 0, .socketConnectAttempt 1] ∧
    IOEvent.socketClose 1 ∉
      (connect ⟨some ⟨0, "A", true⟩⟩ "B" true true 1 .ioError).2.1 := by
  refine ⟨rfl, rfl, rfl, ?_⟩
  decide

/-- C8 (amended): `connect(addrB)` while owning a socket to `addrA` closes
that socket before attempting the handshake to `addrB`, and along the whole
event trace at most one socket is ever open; on success the fresh socket to
`addrB` becomes the sole owned resource.  If the handshake fails, the state
returns to Disconnected and the operation fails with `ConnectionFailed`,
but the attempted socket is merely discarded, not explicitly closed (the
catch-path `closeSocket()` acts on the already-cleared owned slot). -/
theorem c8_connect_close_before_open (s : Socket) (addrB : String) (fresh : Nat)
    (hne : fresh ≠ s.id) :
    ((connect ⟨some s⟩ addrB true true fresh .ok).2.1
        = [.socketClose s.id, .socketConnectAttempt fresh,
            .socketConnected fresh] ∧
      (connect ⟨some s⟩ addrB true true fresh .ok).1
        = ⟨some ⟨fresh, addrB, true⟩⟩ ∧
      ∀ n, (openSockets [s.id]
          (((connect ⟨some s⟩ addrB true true fresh .ok).2.1).take n)).length ≤ 1) ∧
    ((connect ⟨some s⟩ addrB true true fresh .ioError).2.1
        = [.socketClose s.id, .socketConnectAttempt fresh] ∧
      (connect ⟨some s⟩ addrB true true fresh .ioError).1 = ⟨none⟩ ∧
      (connect ⟨some s⟩ addrB true true fresh .ioError).2.2
        = .error .ConnectionFailed ∧
      IOEvent.socketClose fresh ∉
        (connect ⟨some s⟩ addrB true true fresh .ioError).2.1 ∧
      ∀ n, (openSockets [s.id]
          (((connect ⟨some s⟩ addrB true true fresh .ioError).2.1).take n)).length ≤ 1) := by
  constructor
  · refine ⟨rfl, rfl, ?_⟩
    intro n
    match n with
    | 0 => simp [openSockets]
    | 1 => simp [openSockets, connect, closeSocket]
    | 2 => simp [openSockets, connect, closeSocket]
    | (k + 3) =>
      rw [List.take_of_length_le (by simp [connect, closeSocket])]
      simp [openSockets, connect, closeSocket]
  · refine ⟨rfl, rfl, rfl, ?_, ?_⟩
    · simp [connect, closeSocket, hne]
    · intro n
      match n with
      | 0 => simp [openSockets]
      | 1 => simp [openSockets, connect, closeSocket]
      | (k + 2) =>
        rw [List.take_of_length_le (by simp [connect, closeSocket])]
        simp [openSockets, connect, closeSocket]

/-- Witness for `c8_connect_close_before_open` at the concrete scenario of
socket `0` to "A" being replaced by fresh socket `1` to "B". -/
theorem c8_connect_close_before_open_witness :
    (connect ⟨some ⟨0, "A", true⟩⟩ "B" true true 1 .ok).1
      = ⟨some ⟨1, "B", true⟩⟩ :=
  (c8_connect_close_before_open ⟨0, "A", true⟩ "B" 1 (by decide)).1.2.1

/-- C9: a falsy option value is replaced by the documented default in the
serialized line: `xMultiplication: 0` / `yMultiplication: 0` serialize as
`1` and `font: ""` as `"0"` in `text`; `narrow: 0` / `wide: 0` serialize as
`1` in `barcode`; `cellWidth: 0` serializes as `5` (with `eccLevel: ""` as
`L` and `mode: ""` as `A`) in `qrCode` — each call emits the very same line
as the call with the defaults spelled out. -/
theorem c9_falsy_options_get_defaults (b : TSPLBuilder) (x y height : Int)
    (content type : String) (rot : Option Int) (hr : Option Bool) :
    b.text x y content ⟨some "", rot, some 0, some 0⟩
        = b.text x y content ⟨some "0", rot, some 1, some 1⟩ ∧
    b.barcode x y content type height ⟨hr, rot, some 0, some 0⟩
        = b.barcode x y content type height ⟨hr, rot, some 1, some 1⟩ ∧
    b.qrCode x y content ⟨some "", some 0, some "", rot⟩
        = b.qrCode x y content ⟨some "L", some 5, some "A", rot⟩ := by
  exact ⟨rfl, rfl, rfl⟩

/-- C10: a non-I/O exception during the write is rejected with the
catch-all `Unexpected` kind and does not tear down the connection: the
owned socket stays in place, so the module remains `Connected`. -/
theorem c10_sendRaw_unexpected_keeps_socket (id : Nat) (addr data : String) :
    sendRaw ⟨some ⟨id, addr, true⟩⟩ data true .otherError
      = (⟨some ⟨id, addr, true⟩⟩, [.socketWrite id data], .error .Unexpected) := by
  rfl
